import Mathlib

/-!
Verification of the duel combat core of the Lowlife repository
(src/GAME/src/bot/duel: state.py, battlefield.py, actions.py, registry.py,
views.py).  Pure functions are translated directly; random draws of the
source (`random.random()`, `random.randint`) are made explicit parameters:
a `random.random()` draw becomes a rational `q` compared against the same
probability the source compares against, and a `random.randint(lo, hi)`
becomes `roll (lo, hi) r` for an arbitrary seed `r : Nat`, which lands in
`[lo, hi]` for every `r`.
-/

namespace Lowlife

/-- Embeds `clamp` from state.py: `max(lo, min(hi, v))` on machine integers. -/
def clamp (v lo hi : Int) : Int := max lo (min hi v)

/-- Embeds `clamp` from state.py at rational type (Python is untyped here). -/
def clampQ (v lo hi : ℚ) : ℚ := max lo (min hi v)

/-- Embeds `roll((lo, hi)) = random.randint(lo, hi)` from state.py, with the random
draw made explicit: seed `r` is mapped uniformly into `[lo, hi]`. -/
def roll (mm : Nat × Nat) (r : Nat) : Nat := mm.1 + r % (mm.2 - mm.1 + 1)

/-- RangeGate.CLOSE (state.py, `IntEnum` value 0). -/
def CLOSE : Int := 0
/-- RangeGate.NEAR. -/
def NEAR : Int := 1
/-- RangeGate.MID. -/
def MID : Int := 2
/-- RangeGate.FAR. -/
def FAR : Int := 3
/-- RangeGate.OUT. -/
def OUT : Int := 4

/-- Cover levels (state.py). -/
def COVER_NONE : Nat := 0
/-- Partial cover. -/
def COVER_PARTIAL : Nat := 1
/-- Full cover. -/
def COVER_FULL : Nat := 2

/-- Embeds `COVER_TO_HIT_MOD` dict from state.py. -/
def COVER_TO_HIT_MOD (c : Nat) : ℚ :=
  if c = COVER_NONE then 0
  else if c = COVER_PARTIAL then -(20/100)
  else -(40/100)

/-- state.py tuning constants. -/
def BLOCK_REDUCTION : ℚ := 50/100
/-- Base dodge chance. -/
def DODGE_BASE : ℚ := 12/100
/-- Stamina scaling of dodge. -/
def DODGE_STAM_SCALER : ℚ := 25/100
/-- Weight scaling of dodge. -/
def DODGE_WEIGHT_SCALER : ℚ := -(15/100)
/-- Sprint stamina floor. -/
def STAMINA_MIN_FOR_SPRINT : Int := 35
/-- Per-turn stamina regeneration. -/
def STAMINA_REGEN_PER_TURN : Int := 5
/-- Grenade hit probability. -/
def GRENADE_HIT_PCT : ℚ := 75/100
/-- Grenade damage range. -/
def GRENADE_DMG : Nat × Nat := (14, 22)
/-- Probability a grenade blast removes partial cover. -/
def GRENADE_DESTROY_PARTIAL_PCT : ℚ := 35/100
/-- Choke damage range. -/
def CHOKE_DAMAGE : Nat × Nat := (3, 7)
/-- Choke stamina drain. -/
def CHOKE_STAM_DRAIN : Int := 7
/-- Movement costs (state.py `MOVE_COST`). -/
def MOVE_COST_ADVANCE : Int := 6
/-- Retreat cost. -/
def MOVE_COST_RETREAT : Int := 6
/-- Two-gate sprint advance cost. -/
def MOVE_COST_SPRINT_ADV : Int := 10
/-- Two-gate sprint retreat cost. -/
def MOVE_COST_SPRINT_RET : Int := 10

/-- Embeds `FighterState` dataclass from state.py.  `hp` is not a declared field in
the dataclass but every read goes through `getattr(f, "hp", 100)` and
`_apply_damage` writes it, so it is a field defaulted to 100 here. -/
structure FighterState where
  user_id : Nat
  display : String
  hp : Int := 100
  stamina : Int := 85
  cover : Nat := COVER_NONE
  choking_target : Option Nat := none
  is_choked_by : Option Nat := none
  concealment : Int := 0
  weight : ℚ := 15
  status_block : Bool := false
  status_dodge : Bool := false
deriving DecidableEq, Repr

/-- Embeds `DuelState` dataclass from state.py, with the `grenades_pending` map the
legacy view keeps on the state (views.py / actions.py); entries are
`(target_id, (from_id, damage))`. -/
structure DuelState where
  p1 : FighterState
  p2 : FighterState
  current_range : Int := MID
  turn_of : Nat := 1
  round_no : Nat := 1
  log : List String := []
  active : Bool := true
  grenades_pending : List (Nat × Nat × Nat) := []
deriving DecidableEq, Repr

/-- Embeds `DuelState.fighter` from state.py. -/
def DuelState.fighter (ds : DuelState) (idx : Nat) : FighterState :=
  if idx = 1 then ds.p1 else ds.p2

/-- Embeds `DuelState.foe` from state.py. -/
def DuelState.foe (ds : DuelState) (idx : Nat) : FighterState :=
  if idx = 1 then ds.p2 else ds.p1

/-- Write back the acting fighter (Python mutates the aliased object). -/
def DuelState.setFighter (ds : DuelState) (idx : Nat) (f : FighterState) : DuelState :=
  if idx = 1 then { ds with p1 := f } else { ds with p2 := f }

/-- Write back the foe (Python mutates the aliased object). -/
def DuelState.setFoe (ds : DuelState) (idx : Nat) (f : FighterState) : DuelState :=
  if idx = 1 then { ds with p2 := f } else { ds with p1 := f }

/-- Embeds `_apply_damage` from actions.py: `f.hp = max(0, f.hp - dmg)`. -/
def apply_damage (f : FighterState) (dmg : Nat) : FighterState :=
  { f with hp := max 0 (f.hp - dmg) }

/-- Embeds `gate_step` from battlefield.py. -/
def gate_step (g delta : Int) : Int := clamp (g + delta) CLOSE OUT

/-- Embeds `to_hit` from battlefield.py. -/
def to_hit (base : ℚ) (cover : Nat) (stamina : Int) : ℚ :=
  let stam_adj : ℚ := ((stamina : ℚ) - 50) / 100 * (8/100)
  clampQ (base + COVER_TO_HIT_MOD cover + stam_adj) (5/100) (95/100)

/-- Embeds `dodge_chance` from battlefield.py. -/
def dodge_chance (fs : FighterState) : ℚ :=
  let w_adj := (fs.weight / 30) * DODGE_WEIGHT_SCALER
  let s_adj := (((fs.stamina : ℚ) - 50) / 50) * DODGE_STAM_SCALER
  clampQ (DODGE_BASE + w_adj + s_adj) (2/100) (50/100)

/-- Embeds `end_turn_recover` from battlefield.py. -/
def end_turn_recover (fs : FighterState) : FighterState :=
  { fs with stamina := clamp (fs.stamina + STAMINA_REGEN_PER_TURN) 0 100,
            status_block := false, status_dodge := false }

/-- Embeds `act_advance` from battlefield.py (random meters are cosmetic; the gate
logic is exact). -/
def act_advance (ds : DuelState) (idx : Nat) (sprint : Bool) : String × DuelState :=
  let f := ds.fighter idx
  let steps : Int :=
    if sprint = true ∧ STAMINA_MIN_FOR_SPRINT ≤ f.stamina ∧ f.weight ≤ 25 then 2 else 1
  let cost := if steps = 2 then MOVE_COST_SPRINT_ADV else MOVE_COST_ADVANCE
  let f1 := { f with stamina := clamp (f.stamina - cost) 0 100 }
  (f.display ++ " **advances**.",
    { ds.setFighter idx f1 with current_range := gate_step ds.current_range (-steps) })

/-- Embeds `act_retreat` from battlefield.py. -/
def act_retreat (ds : DuelState) (idx : Nat) (sprint : Bool) : String × DuelState :=
  let f := ds.fighter idx
  let steps : Int :=
    if sprint = true ∧ STAMINA_MIN_FOR_SPRINT ≤ f.stamina ∧ f.weight ≤ 25 then 2 else 1
  let cost := if steps = 2 then MOVE_COST_SPRINT_RET else MOVE_COST_RETREAT
  let f1 := { f with stamina := clamp (f.stamina - cost) 0 100 }
  (f.display ++ " **retreats**.",
    { ds.setFighter idx f1 with current_range := gate_step ds.current_range steps })

/-- Embeds `act_block` from actions.py. -/
def act_block (ds : DuelState) (idx : Nat) : String × DuelState :=
  let f := ds.fighter idx
  let f1 := { f with stamina := clamp (f.stamina - 4) 0 100,
                     status_block := true, status_dodge := false }
  (f.display ++ " raises a **block**.", ds.setFighter idx f1)

/-- Embeds `act_dodge` from actions.py. -/
def act_dodge (ds : DuelState) (idx : Nat) : String × DuelState :=
  let f := ds.fighter idx
  let f1 := { f with stamina := clamp (f.stamina - 6) 0 100,
                     status_dodge := true, status_block := false }
  (f.display ++ " prepares to **dodge**.", ds.setFighter idx f1)

/-- Integer damage reduction of a consumed block:
`math.floor(dmg * (1.0 - BLOCK_REDUCTION))` from actions.py. -/
def blockReduce (dmg : Nat) : Nat :=
  (Int.floor ((dmg : ℚ) * (1 - BLOCK_REDUCTION))).toNat

/-- Embeds `act_punch` from actions.py.  `qd` is the `random.random()` draw behind
`chance(dodge_chance(dfn))`; `r` seeds `roll((5, 9))`. -/
def act_punch (ds : DuelState) (idx : Nat) (qd : ℚ) (r : Nat) : String × DuelState :=
  if ds.current_range ≠ CLOSE then ("X Punch requires **Close** range.", ds)
  else
    let atk := ds.fighter idx
    let dfn := ds.foe idx
    if dfn.status_dodge = true ∧ qd < dodge_chance dfn then
      (atk.display ++ " throws a **punch**, but " ++ dfn.display ++ " **dodges**.",
        ds.setFoe idx { dfn with status_block := false, status_dodge := false })
    else
      let dmg0 := roll (5, 9) r
      if dfn.status_block = true then
        let dmg := blockReduce dmg0
        let dfn1 := apply_damage { dfn with status_block := false, status_dodge := false } dmg
        let atk1 := { atk with stamina := clamp (atk.stamina - 5) 0 100 }
        (atk.display ++ " **punches** " ++ dfn.display ++ " (blocked).",
          (ds.setFoe idx dfn1).setFighter idx atk1)
      else
        let dfn1 := apply_damage dfn dmg0
        let atk1 := { atk with stamina := clamp (atk.stamina - 5) 0 100 }
        (atk.display ++ " **punches** " ++ dfn.display ++ ".",
          (ds.setFoe idx dfn1).setFighter idx atk1)

/-- Embeds `WeaponProfile` stub from state.py (the combat_loadout provider is
absent, so the in-repo fallback is the authoritative code path). -/
structure WeaponProfile where
  name : String
  accuracy : ℚ
  dmg : Nat × Nat
deriving DecidableEq, Repr

/-- Embeds `pick_weapon_for_range` fallback from state.py: a Sidearm away from
Close, Fists at Close. -/
def pick_weapon_for_range (gate : Int) : WeaponProfile :=
  if gate = NEAR ∨ gate = MID ∨ gate = FAR ∨ gate = OUT then
    { name := "Sidearm", accuracy := 55/100, dmg := (6, 10) }
  else
    { name := "Fists", accuracy := 65/100, dmg := (4, 7) }

/-- Embeds `act_shoot` from actions.py.  `qd` drives `chance(dodge_chance(dfn))`,
`qh` drives `chance(to_hit(...))`, `r` seeds the weapon damage roll. -/
def act_shoot (ds : DuelState) (idx : Nat) (qd qh : ℚ) (r : Nat) : String × DuelState :=
  let atk := ds.fighter idx
  let dfn := ds.foe idx
  if ds.current_range = OUT then ("X Target is **out of range**.", ds)
  else
    let wp := pick_weapon_for_range ds.current_range
    if dfn.status_dodge = true ∧ qd < dodge_chance dfn then
      let dfn1 := { dfn with status_block := false, status_dodge := false }
      let atk1 := { atk with stamina := clamp (atk.stamina - 7) 0 100 }
      (atk.display ++ " fires " ++ wp.name ++ ", but " ++ dfn.display ++ " **dodges**.",
        (ds.setFoe idx dfn1).setFighter idx atk1)
    else
      let hit := qh < to_hit wp.accuracy dfn.cover atk.stamina
      let atk1 := { atk with stamina := clamp (atk.stamina - 7) 0 100 }
      if ¬hit then
        (atk.display ++ " fires " ++ wp.name ++ " and **misses**.", ds.setFighter idx atk1)
      else
        let dmg0 := roll wp.dmg r
        if dfn.status_block = true then
          let dfn1 := apply_damage { dfn with status_block := false, status_dodge := false }
                        (blockReduce dmg0)
          (atk.display ++ " **hits** with " ++ wp.name ++ " (blocked).",
            (ds.setFoe idx dfn1).setFighter idx atk1)
        else
          (atk.display ++ " **hits** with " ++ wp.name ++ ".",
            (ds.setFoe idx (apply_damage dfn dmg0)).setFighter idx atk1)

/-- Embeds `act_grenade` from actions.py.  `qhit` drives `chance(GRENADE_HIT_PCT)`,
`qdestroy` drives `chance(GRENADE_DESTROY_PARTIAL_PCT)`, `r` seeds
`roll(GRENADE_DMG)`.  Note that the function performs no grenade-count
check. -/
def act_grenade (ds : DuelState) (idx : Nat) (qhit qdestroy : ℚ) (r : Nat) :
    String × DuelState :=
  let atk := ds.fighter idx
  let dfn := ds.foe idx
  let atk1 := { atk with stamina := clamp (atk.stamina - 10) 0 100 }
  let ds1 := ds.setFighter idx atk1
  if qhit < GRENADE_HIT_PCT then
    let dmg := roll GRENADE_DMG r
    let dfn1 := if dfn.cover = COVER_PARTIAL ∧ qdestroy < GRENADE_DESTROY_PARTIAL_PCT
                then { dfn with cover := COVER_NONE } else dfn
    let dfn2 := apply_damage { dfn1 with status_block := false, status_dodge := false } dmg
    (atk.display ++ " **throws a grenade** - it **hits**.", ds1.setFoe idx dfn2)
  else
    (atk.display ++ " **throws a grenade** - it **misses**.", ds1)

/-- Embeds `act_grapple` from actions.py.  `q` drives `chance(0.6)`.  On success
only the defender's `is_choked_by` is written. -/
def act_grapple (ds : DuelState) (idx : Nat) (q : ℚ) : String × DuelState :=
  let atk := ds.fighter idx
  let dfn := ds.foe idx
  if ds.current_range ≠ CLOSE then ("X Grapple requires **Close** range.", ds)
  else
    let atk1 := { atk with stamina := clamp (atk.stamina - 6) 0 100 }
    if q < 6/10 then
      (atk.display ++ " **secures a grapple** on " ++ dfn.display ++ ".",
        (ds.setFighter idx atk1).setFoe idx { dfn with is_choked_by := some atk.user_id })
    else
      (atk.display ++ " attempts to grapple but **fails**.", ds.setFighter idx atk1)

/-- Embeds `act_choke` from actions.py.  `ql` drives `chance(0.45)`; `r` seeds
`roll(CHOKE_DAMAGE)`.  The nested Python guards are merged into one
condition (the inner `if` only runs when the outer one holds). -/
def act_choke (ds : DuelState) (idx : Nat) (ql : ℚ) (r : Nat) : String × DuelState :=
  let atk := ds.fighter idx
  let dfn := ds.foe idx
  if (dfn.is_choked_by ≠ some atk.user_id ∧ atk.choking_target ≠ some dfn.user_id) ∧
     (ds.current_range ≠ CLOSE ∨ ¬(ql < 45/100)) then
    ("X You need a **grapple** (or get lucky at Close) to choke.", ds)
  else
    let atk1 := { atk with choking_target := some dfn.user_id,
                           stamina := clamp (atk.stamina - CHOKE_STAM_DRAIN) 0 100 }
    let dmg := roll CHOKE_DAMAGE r
    let dfn1 := apply_damage { dfn with is_choked_by := some atk.user_id,
                                        status_block := false, status_dodge := false } dmg
    (atk.display ++ " **chokes** " ++ dfn.display ++ ".",
      (ds.setFighter idx atk1).setFoe idx dfn1)

/-- Embeds `act_push` from actions.py. -/
def act_push (ds : DuelState) (idx : Nat) : String × DuelState :=
  let atk := ds.fighter idx
  let dfn := ds.foe idx
  if atk.choking_target ≠ some dfn.user_id then
    ("X You can **Push** primarily when you are controlling (e.g., during choke).", ds)
  else
    let atk1 := { atk with choking_target := none }
    let dfn1 := { dfn with is_choked_by := none }
    (atk.display ++ " **pushes** " ++ dfn.display ++ " off, breaking the choke.",
      { (ds.setFighter idx atk1).setFoe idx dfn1 with
          current_range := min (ds.current_range + 1) OUT })

/-- Embeds `act_gouge` from actions.py: the acting fighter is the choke victim.
`q` drives `chance(0.65)`; `r` seeds `roll((2, 5))`. -/
def act_gouge (ds : DuelState) (idx : Nat) (q : ℚ) (r : Nat) : String × DuelState :=
  let vic := ds.fighter idx
  let atk := ds.foe idx
  if vic.is_choked_by ≠ some atk.user_id then
    ("X **Gouge** is only available when **you are being choked**.", ds)
  else if q < 65/100 then
    let vic1 := { vic with is_choked_by := none }
    let atk1 := apply_damage { atk with choking_target := none } (roll (2, 5) r)
    (vic.display ++ " **gouges** to break free!",
      (ds.setFighter idx vic1).setFoe idx atk1)
  else
    (vic.display ++ " tries to **gouge** free but **fails**.", ds)

/-- Embeds `can_throw_grenade` from actions.py: the kit holds `grenades` many
grenades (default 0); true exactly when the count is positive. -/
def can_throw_grenade (grenades : Int) : Bool := decide (0 < grenades)

/-- Embeds `resolve_pending_grenade` from actions.py: pop the entry keyed by the
acting fighter's id from `ds.grenades_pending`; if present, apply its
recorded damage to the actor and log the detonation. -/
def resolve_pending_grenade (ds : DuelState) (idx : Nat) : DuelState :=
  let actor := ds.fighter idx
  match ds.grenades_pending.find? (fun e => e.1 == actor.user_id) with
  | none => ds
  | some e =>
      let actor1 := apply_damage actor e.2.2
      let ds1 := ds.setFighter idx actor1
      { ds1 with
          grenades_pending := ds.grenades_pending.filter (fun x => x.1 ≠ actor.user_id),
          log := ds.log ++ ["The grenade detonates near " ++ actor.display ++ "."] }

/-- Player stats consumed by initiative (`load_player_stats` is a black-box
collaborator; the formula quantifies over its outputs). -/
structure PlayerStats where
  combat : ℚ
  fitness : ℚ
deriving DecidableEq, Repr

/-- Python `round` (banker's rounding, half to even) used for the logged
percentages in `_decide_initiative`. -/
def round_half_even (q : ℚ) : Int :=
  let f := Int.floor q
  if q - f < 1/2 then f
  else if 1/2 < q - f then f + 1
  else if f % 2 = 0 then f else f + 1

/-- The slice of the registry's `DuelState` (duel_core) that initiative
touches: turn holder index, the two log lists and the initiative note. -/
structure InitState where
  turn_id : Nat := 0
  log_lines : List String := []
  full_log_lines : List String := []
  initiative_note : String := ""
deriving DecidableEq, Repr

/-- The initiative probability of `_decide_initiative` (registry.py). -/
def initiative_p (sa sb : PlayerStats) : ℚ :=
  clampQ (1/2 + 2/100 * (sa.combat - sb.combat) + 1/100 * (sa.fitness - sb.fitness))
    (10/100) (90/100)

/-- Embeds `_decide_initiative` from registry.py.  `rollq` is the `random.random()`
draw; fighter A starts exactly when `rollq ≤ p_a`. -/
def decide_initiative (sa sb : PlayerStats) (aName bName : String) (rollq : ℚ)
    (st : InitState) : InitState :=
  let p_a := initiative_p sa sb
  let firstA : Bool := decide (rollq ≤ p_a)
  let pa := round_half_even (p_a * 100)
  let pb := 100 - pa
  let line := "Initiative: " ++ aName ++ " " ++ toString pa ++ "% vs " ++ bName ++ " "
      ++ toString pb ++ "% -> **" ++ (if firstA then aName else bName) ++ "** starts."
  { st with
      turn_id := if firstA then 0 else 1,
      initiative_note := "a" ++ toString pa ++ "_[b" ++ toString pb ++ "]",
      log_lines := st.log_lines ++ [line],
      full_log_lines := st.full_log_lines ++ [line] }

/-!  Invariant predicates over the embedded state. -/

/-- Stamina clamped into `[0, 100]`. -/
def stamOK (f : FighterState) : Prop := 0 ≤ f.stamina ∧ f.stamina ≤ 100

/-- HP never negative. -/
def hpOK (f : FighterState) : Prop := 0 ≤ f.hp

/-- Both numeric fighter invariants. -/
def fighterOK (f : FighterState) : Prop := stamOK f ∧ hpOK f

/-- Numeric invariants of a whole duel state. -/
def dsOK (ds : DuelState) : Prop := fighterOK ds.p1 ∧ fighterOK ds.p2

/-- The choke fields form a matched pair or are both null: X chokes Y
exactly when Y records being choked by X, in both directions. -/
def chokePair (ds : DuelState) : Prop :=
  (ds.p1.choking_target = some ds.p2.user_id ↔ ds.p2.is_choked_by = some ds.p1.user_id) ∧
  (ds.p2.choking_target = some ds.p1.user_id ↔ ds.p1.is_choked_by = some ds.p2.user_id)

/-!  Access lemmas for the state-writeback helpers. -/

@[simp] lemma fighter_setFighter (ds : DuelState) (idx : Nat) (f : FighterState) :
    (ds.setFighter idx f).fighter idx = f := by
  unfold DuelState.setFighter DuelState.fighter; split <;> simp_all

@[simp] lemma foe_setFighter (ds : DuelState) (idx : Nat) (f : FighterState) :
    (ds.setFighter idx f).foe idx = ds.foe idx := by
  unfold DuelState.setFighter DuelState.foe; split <;> simp_all

@[simp] lemma fighter_setFoe (ds : DuelState) (idx : Nat) (f : FighterState) :
    (ds.setFoe idx f).fighter idx = ds.fighter idx := by
  unfold DuelState.setFoe DuelState.fighter; split <;> simp_all

@[simp] lemma foe_setFoe (ds : DuelState) (idx : Nat) (f : FighterState) :
    (ds.setFoe idx f).foe idx = f := by
  unfold DuelState.setFoe DuelState.foe; split <;> simp_all

@[simp] lemma range_setFighter (ds : DuelState) (idx : Nat) (f : FighterState) :
    (ds.setFighter idx f).current_range = ds.current_range := by
  unfold DuelState.setFighter; split <;> rfl

@[simp] lemma range_setFoe (ds : DuelState) (idx : Nat) (f : FighterState) :
    (ds.setFoe idx f).current_range = ds.current_range := by
  unfold DuelState.setFoe; split <;> rfl

lemma clamp_mem (v : Int) : 0 ≤ clamp v 0 100 ∧ clamp v 0 100 ≤ 100 := by
  unfold clamp; omega

lemma roll_mem (mm : Nat × Nat) (r : Nat) (h : mm.1 ≤ mm.2) :
    mm.1 ≤ roll mm r ∧ roll mm r ≤ mm.2 := by
  unfold roll
  have h2 : r % (mm.2 - mm.1 + 1) < mm.2 - mm.1 + 1 := Nat.mod_lt r (by omega)
  omega

lemma clampQ_mem (v lo hi : ℚ) (h : lo ≤ hi) :
    lo ≤ clampQ v lo hi ∧ clampQ v lo hi ≤ hi := by
  unfold clampQ
  constructor
  · exact le_max_left lo _
  · exact max_le h (min_le_left hi v)

lemma blockReduce_eq (d : Nat) : blockReduce d = d / 2 := by
  unfold blockReduce BLOCK_REDUCTION
  have h1 : (d : ℚ) * (1 - 50/100) = (d : ℚ) / ((2 : ℕ) : ℚ) := by push_cast; ring
  rw [h1, Int.floor_toNat, Nat.floor_div_nat]
  simp

lemma fighterOK_fighter (ds : DuelState) (idx : Nat) (h : dsOK ds) :
    fighterOK (ds.fighter idx) := by
  unfold DuelState.fighter; split
  · exact h.1
  · exact h.2

lemma fighterOK_foe (ds : DuelState) (idx : Nat) (h : dsOK ds) :
    fighterOK (ds.foe idx) := by
  unfold DuelState.foe; split
  · exact h.2
  · exact h.1

lemma dsOK_setFighter (ds : DuelState) (idx : Nat) (f : FighterState)
    (h : dsOK ds) (hf : fighterOK f) : dsOK (ds.setFighter idx f) := by
  unfold DuelState.setFighter; split
  · exact ⟨hf, h.2⟩
  · exact ⟨h.1, hf⟩

lemma dsOK_setFoe (ds : DuelState) (idx : Nat) (f : FighterState)
    (h : dsOK ds) (hf : fighterOK f) : dsOK (ds.setFoe idx f) := by
  unfold DuelState.setFoe; split
  · exact ⟨h.1, hf⟩
  · exact ⟨hf, h.2⟩

lemma dsOK_act_block (ds : DuelState) (idx : Nat) (h : dsOK ds) :
    dsOK (act_block ds idx).2 := by
  have h1 := fighterOK_fighter ds idx h
  simp only [act_block]
  exact dsOK_setFighter _ _ _ h ⟨clamp_mem _, h1.2⟩

lemma dsOK_act_dodge (ds : DuelState) (idx : Nat) (h : dsOK ds) :
    dsOK (act_dodge ds idx).2 := by
  have h1 := fighterOK_fighter ds idx h
  simp only [act_dodge]
  exact dsOK_setFighter _ _ _ h ⟨clamp_mem _, h1.2⟩

lemma dsOK_act_punch (ds : DuelState) (idx : Nat) (qd : ℚ) (r : Nat) (h : dsOK ds) :
    dsOK (act_punch ds idx qd r).2 := by
  have h1 := fighterOK_fighter ds idx h
  have h2 := fighterOK_foe ds idx h
  simp only [act_punch]
  split
  · exact h
  · split
    · exact dsOK_setFoe _ _ _ h h2
    · split
      · exact dsOK_setFighter _ _ _
          (dsOK_setFoe _ _ _ h ⟨h2.1, le_max_left 0 _⟩) ⟨clamp_mem _, h1.2⟩
      · exact dsOK_setFighter _ _ _
          (dsOK_setFoe _ _ _ h ⟨h2.1, le_max_left 0 _⟩) ⟨clamp_mem _, h1.2⟩

lemma dsOK_act_shoot (ds : DuelState) (idx : Nat) (qd qh : ℚ) (r : Nat) (h : dsOK ds) :
    dsOK (act_shoot ds idx qd qh r).2 := by
  have h1 := fighterOK_fighter ds idx h
  have h2 := fighterOK_foe ds idx h
  simp only [act_shoot]
  split
  · exact h
  · split
    · exact dsOK_setFighter _ _ _ (dsOK_setFoe _ _ _ h h2) ⟨clamp_mem _, h1.2⟩
    · split
      · exact dsOK_setFighter _ _ _ h ⟨clamp_mem _, h1.2⟩
      · split
        · exact dsOK_setFighter _ _ _
            (dsOK_setFoe _ _ _ h ⟨h2.1, le_max_left 0 _⟩) ⟨clamp_mem _, h1.2⟩
        · exact dsOK_setFighter _ _ _
            (dsOK_setFoe _ _ _ h ⟨h2.1, le_max_left 0 _⟩) ⟨clamp_mem _, h1.2⟩

lemma dsOK_act_grenade (ds : DuelState) (idx : Nat) (qhit qdestroy : ℚ) (r : Nat)
    (h : dsOK ds) : dsOK (act_grenade ds idx qhit qdestroy r).2 := by
  have h1 := fighterOK_fighter ds idx h
  have h2 := fighterOK_foe ds idx h
  simp only [act_grenade]
  split
  · split
    · exact dsOK_setFoe _ _ _ (dsOK_setFighter _ _ _ h ⟨clamp_mem _, h1.2⟩)
        ⟨h2.1, le_max_left 0 _⟩
    · exact dsOK_setFoe _ _ _ (dsOK_setFighter _ _ _ h ⟨clamp_mem _, h1.2⟩)
        ⟨h2.1, le_max_left 0 _⟩
  · exact dsOK_setFighter _ _ _ h ⟨clamp_mem _, h1.2⟩

lemma dsOK_act_grapple (ds : DuelState) (idx : Nat) (q : ℚ) (h : dsOK ds) :
    dsOK (act_grapple ds idx q).2 := by
  have h1 := fighterOK_fighter ds idx h
  have h2 := fighterOK_foe ds idx h
  simp only [act_grapple]
  split
  · exact h
  · split
    · exact dsOK_setFoe _ _ _ (dsOK_setFighter _ _ _ h ⟨clamp_mem _, h1.2⟩) h2
    · exact dsOK_setFighter _ _ _ h ⟨clamp_mem _, h1.2⟩

lemma dsOK_act_choke (ds : DuelState) (idx : Nat) (ql : ℚ) (r : Nat) (h : dsOK ds) :
    dsOK (act_choke ds idx ql r).2 := by
  have h1 := fighterOK_fighter ds idx h
  have h2 := fighterOK_foe ds idx h
  simp only [act_choke]
  split
  · exact h
  · exact dsOK_setFoe _ _ _ (dsOK_setFighter _ _ _ h ⟨clamp_mem _, h1.2⟩)
      ⟨h2.1, le_max_left 0 _⟩

lemma dsOK_range_set (ds : DuelState) (rg : Int) (h : dsOK ds) :
    dsOK { ds with current_range := rg } := h

lemma dsOK_act_push (ds : DuelState) (idx : Nat) (h : dsOK ds) :
    dsOK (act_push ds idx).2 := by
  have h1 := fighterOK_fighter ds idx h
  have h2 := fighterOK_foe ds idx h
  simp only [act_push]
  split
  · exact h
  · exact dsOK_range_set _ _ (dsOK_setFoe _ _ _ (dsOK_setFighter _ _ _ h h1) h2)

lemma dsOK_act_gouge (ds : DuelState) (idx : Nat) (q : ℚ) (r : Nat) (h : dsOK ds) :
    dsOK (act_gouge ds idx q r).2 := by
  have h1 := fighterOK_fighter ds idx h
  have h2 := fighterOK_foe ds idx h
  simp only [act_gouge]
  split
  · exact h
  · split
    · exact dsOK_setFoe _ _ _ (dsOK_setFighter _ _ _ h h1) ⟨h2.1, le_max_left 0 _⟩
    · exact h

lemma dsOK_act_advance (ds : DuelState) (idx : Nat) (sprint : Bool) (h : dsOK ds) :
    dsOK (act_advance ds idx sprint).2 := by
  have h1 := fighterOK_fighter ds idx h
  simp only [act_advance]
  exact dsOK_range_set _ _ (dsOK_setFighter _ _ _ h ⟨clamp_mem _, h1.2⟩)

lemma dsOK_act_retreat (ds : DuelState) (idx : Nat) (sprint : Bool) (h : dsOK ds) :
    dsOK (act_retreat ds idx sprint).2 := by
  have h1 := fighterOK_fighter ds idx h
  simp only [act_retreat]
  exact dsOK_range_set _ _ (dsOK_setFighter _ _ _ h ⟨clamp_mem _, h1.2⟩)

/-!  Concrete states used to instantiate the theorems. -/

/-- A fresh fighter A. -/
def fA : FighterState := { user_id := 1, display := "A" }
/-- A fresh fighter B. -/
def fB : FighterState := { user_id := 2, display := "B" }
/-- Fresh duel at the default Mid range. -/
def dsMid : DuelState := { p1 := fA, p2 := fB }
/-- Fresh duel at Close range. -/
def dsClose : DuelState := { p1 := fA, p2 := fB, current_range := CLOSE }
/-- Fresh duel at Out range. -/
def dsOut : DuelState := { p1 := fA, p2 := fB, current_range := OUT }
/-- Close-range duel in which B has the dodge flag set. -/
def dsDodge : DuelState :=
  { p1 := fA, p2 := { fB with status_dodge := true }, current_range := CLOSE }
/-- Duel in which fighter A holds a full choke link on B. -/
def dsChoke : DuelState :=
  { p1 := { fA with choking_target := some 2 },
    p2 := { fB with is_choked_by := some 1 }, current_range := CLOSE }

/-- C2: every resolver action keeps both fighters' stamina inside `[0, 100]`,
and applying damage never produces a negative HP value. -/
theorem numeric_invariants_preserved :
    (∀ (f : FighterState) (d : Nat), 0 ≤ (apply_damage f d).hp) ∧
    (∀ f : FighterState, fighterOK f → fighterOK (end_turn_recover f)) ∧
    (∀ (ds : DuelState) (idx : Nat) (sprint : Bool) (qd qh qhit qdestroy ql q : ℚ)
       (r : Nat), dsOK ds →
      dsOK (act_block ds idx).2 ∧ dsOK (act_dodge ds idx).2 ∧
      dsOK (act_punch ds idx qd r).2 ∧ dsOK (act_shoot ds idx qd qh r).2 ∧
      dsOK (act_grenade ds idx qhit qdestroy r).2 ∧ dsOK (act_grapple ds idx q).2 ∧
      dsOK (act_choke ds idx ql r).2 ∧ dsOK (act_push ds idx).2 ∧
      dsOK (act_gouge ds idx q r).2 ∧ dsOK (act_advance ds idx sprint).2 ∧
      dsOK (act_retreat ds idx sprint).2) := by
  refine ⟨fun f d => le_max_left 0 _, fun f hf => ⟨clamp_mem _, hf.2⟩, ?_⟩
  intro ds idx sprint qd qh qhit qdestroy ql q r h
  exact ⟨dsOK_act_block ds idx h, dsOK_act_dodge ds idx h,
    dsOK_act_punch ds idx qd r h, dsOK_act_shoot ds idx qd qh r h,
    dsOK_act_grenade ds idx qhit qdestroy r h, dsOK_act_grapple ds idx q h,
    dsOK_act_choke ds idx ql r h, dsOK_act_push ds idx h,
    dsOK_act_gouge ds idx q r h, dsOK_act_advance ds idx sprint h,
    dsOK_act_retreat ds idx sprint h⟩

/-- C2 witness: the invariant theorem applied to a fresh duel state. -/
theorem numeric_invariants_preserved_witness :
    fighterOK (end_turn_recover fA) ∧
    (dsOK (act_block dsMid 1).2 ∧ dsOK (act_dodge dsMid 1).2 ∧
     dsOK (act_punch dsMid 1 (1/2) 3).2 ∧ dsOK (act_shoot dsMid 1 (1/2) (1/2) 3).2 ∧
     dsOK (act_grenade dsMid 1 (1/2) (1/2) 3).2 ∧ dsOK (act_grapple dsMid 1 (1/2)).2 ∧
     dsOK (act_choke dsMid 1 (1/2) 3).2 ∧ dsOK (act_push dsMid 1).2 ∧
     dsOK (act_gouge dsMid 1 (1/2) 3).2 ∧ dsOK (act_advance dsMid 1 false).2 ∧
     dsOK (act_retreat dsMid 1 false).2) :=
  ⟨numeric_invariants_preserved.2.1 fA
      (by norm_num [fighterOK, stamOK, hpOK, fA]),
   numeric_invariants_preserved.2.2 dsMid 1 false (1/2) (1/2) (1/2) (1/2) (1/2) (1/2) 3
      (by norm_num [dsOK, fighterOK, stamOK, hpOK, dsMid, fA, fB])⟩

/-- C3: `gate_step` clamps into `[Close, Out]`; advancing from Close and
retreating from Out leave the gate unchanged; a successful Push advances the
gate one step toward Out, never past it. -/
theorem range_gate_clamped :
    (∀ g delta : Int, CLOSE ≤ g → g ≤ OUT →
       CLOSE ≤ gate_step g delta ∧ gate_step g delta ≤ OUT) ∧
    (∀ (ds : DuelState) (idx : Nat) (sprint : Bool), ds.current_range = CLOSE →
       (act_advance ds idx sprint).2.current_range = CLOSE) ∧
    (∀ (ds : DuelState) (idx : Nat) (sprint : Bool), ds.current_range = OUT →
       (act_retreat ds idx sprint).2.current_range = OUT) ∧
    (∀ (ds : DuelState) (idx : Nat),
       (ds.fighter idx).choking_target = some ((ds.foe idx).user_id) →
       (act_push ds idx).2.current_range = min (ds.current_range + 1) OUT ∧
       (ds.current_range ≤ OUT → (act_push ds idx).2.current_range ≤ OUT)) := by
  refine ⟨?_, ?_, ?_, ?_⟩
  · intro g delta _ _
    unfold gate_step clamp CLOSE OUT
    omega
  · intro ds idx sprint hr
    simp only [act_advance]
    split <;> simp [gate_step, clamp, hr, CLOSE, OUT]
  · intro ds idx sprint hr
    simp only [act_retreat]
    split <;> simp [gate_step, clamp, hr, CLOSE, OUT]
  · intro ds idx hlink
    simp only [act_push]
    split
    · exact absurd hlink (by assumption)
    · exact ⟨rfl, fun hle => min_le_right _ _⟩

/-- C3 witness: concrete instances of the range-gate theorem. -/
theorem range_gate_clamped_witness :
    (CLOSE ≤ gate_step MID 7 ∧ gate_step MID 7 ≤ OUT) ∧
    (act_advance dsClose 1 false).2.current_range = CLOSE ∧
    (act_retreat dsOut 1 false).2.current_range = OUT ∧
    (act_push dsChoke 1).2.current_range = min (dsChoke.current_range + 1) OUT :=
  ⟨range_gate_clamped.1 MID 7 (by decide) (by decide),
   range_gate_clamped.2.1 dsClose 1 false (by decide),
   range_gate_clamped.2.2.1 dsOut 1 false (by decide),
   (range_gate_clamped.2.2.2 dsChoke 1 (by decide)).1⟩

/-- C4: `to_hit` is the base accuracy plus the cover modifier
(0 / −0.20 / −0.40) plus the stamina adjustment, clamped to `[0.05, 0.95]`,
and `dodge_chance` is the documented weight/stamina formula clamped to
`[0.02, 0.50]`; both always land inside their clamp bounds. -/
theorem hit_and_dodge_probability_formulas :
    (∀ (base : ℚ) (st : Int), to_hit base COVER_NONE st =
        clampQ (base + 0 + ((st : ℚ) - 50) / 100 * (8/100)) (5/100) (95/100)) ∧
    (∀ (base : ℚ) (st : Int), to_hit base COVER_PARTIAL st =
        clampQ (base + -(20/100) + ((st : ℚ) - 50) / 100 * (8/100)) (5/100) (95/100)) ∧
    (∀ (base : ℚ) (st : Int), to_hit base COVER_FULL st =
        clampQ (base + -(40/100) + ((st : ℚ) - 50) / 100 * (8/100)) (5/100) (95/100)) ∧
    (∀ (base : ℚ) (c : Nat) (st : Int),
        5/100 ≤ to_hit base c st ∧ to_hit base c st ≤ 95/100) ∧
    (∀ fs : FighterState, dodge_chance fs =
        clampQ ((12/100 : ℚ) + (fs.weight / 30) * (-(15/100)) +
          (((fs.stamina : ℚ) - 50) / 50) * (25/100)) (2/100) (50/100)) ∧
    (∀ fs : FighterState, 2/100 ≤ dodge_chance fs ∧ dodge_chance fs ≤ 50/100) := by
  refine ⟨?_, ?_, ?_, ?_, ?_, ?_⟩
  · intro base st
    simp [to_hit, COVER_TO_HIT_MOD, COVER_NONE]
  · intro base st
    simp [to_hit, COVER_TO_HIT_MOD, COVER_PARTIAL, COVER_NONE]
  · intro base st
    simp [to_hit, COVER_TO_HIT_MOD, COVER_FULL, COVER_NONE, COVER_PARTIAL]
  · intro base c st
    exact clampQ_mem _ _ _ (by norm_num)
  · intro fs
    simp [dodge_chance, DODGE_BASE, DODGE_WEIGHT_SCALER, DODGE_STAM_SCALER]
  · intro fs
    exact clampQ_mem _ _ _ (by norm_num)

/-- C9: the initiative probability is the documented clamped stat formula;
fighter A starts exactly when the uniform draw is at most that probability,
and the initiative line is appended to each log exactly once. -/
theorem initiative_roll_spec :
    (∀ sa sb : PlayerStats, initiative_p sa sb =
       clampQ (1/2 + 2/100 * (sa.combat - sb.combat) + 1/100 * (sa.fitness - sb.fitness))
         (10/100) (90/100)) ∧
    (∀ (sa sb : PlayerStats) (aName bName : String) (rollq : ℚ) (st : InitState),
       ((decide_initiative sa sb aName bName rollq st).turn_id =
          if rollq ≤ initiative_p sa sb then 0 else 1) ∧
       (decide_initiative sa sb aName bName rollq st).log_lines.length =
          st.log_lines.length + 1 ∧
       (decide_initiative sa sb aName bName rollq st).full_log_lines.length =
          st.full_log_lines.length + 1) := by
  refine ⟨fun sa sb => rfl, ?_⟩
  intro sa sb aName bName rollq st
  refine ⟨?_, ?_, ?_⟩
  · simp only [decide_initiative]
    by_cases hle : rollq ≤ initiative_p sa sb <;> simp [hle]
  · simp [decide_initiative]
  · simp [decide_initiative]

/-- C1: without an established grapple/choke link, and without
(Close range and a successful 45% luck roll), `act_choke` returns the
rejection string and leaves the state untouched; when the precondition
holds it sets the mutual choke link, drains the attacker's stamina by 7
(clamped into `[0, 100]`), deals uniform damage in `[3, 7]` (HP clamped at
0) and clears the defender's block/dodge flags. -/
theorem choke_guard_and_effects :
    ∀ (ds : DuelState) (idx : Nat) (ql : ℚ) (r : Nat),
    ((ds.foe idx).is_choked_by ≠ some ((ds.fighter idx).user_id) →
     (ds.fighter idx).choking_target ≠ some ((ds.foe idx).user_id) →
     (ds.current_range ≠ CLOSE ∨ ¬(ql < 45/100)) →
     act_choke ds idx ql r =
       ("X You need a **grapple** (or get lucky at Close) to choke.", ds)) ∧
    (((ds.foe idx).is_choked_by = some ((ds.fighter idx).user_id) ∨
      (ds.fighter idx).choking_target = some ((ds.foe idx).user_id) ∨
      (ds.current_range = CLOSE ∧ ql < 45/100)) →
     ((act_choke ds idx ql r).2.fighter idx).choking_target = some ((ds.foe idx).user_id) ∧
     ((act_choke ds idx ql r).2.foe idx).is_choked_by = some ((ds.fighter idx).user_id) ∧
     ((act_choke ds idx ql r).2.fighter idx).stamina =
        clamp ((ds.fighter idx).stamina - 7) 0 100 ∧
     ((act_choke ds idx ql r).2.foe idx).hp =
        max 0 ((ds.foe idx).hp - roll (3, 7) r) ∧
     3 ≤ roll (3, 7) r ∧ roll (3, 7) r ≤ 7 ∧
     ((act_choke ds idx ql r).2.foe idx).status_block = false ∧
     ((act_choke ds idx ql r).2.foe idx).status_dodge = false) := by
  intro ds idx ql r
  constructor
  · intro h1 h2 h3
    simp only [act_choke]
    rw [if_pos ⟨⟨h1, h2⟩, h3⟩]
  · intro hpre
    have hcond : ¬((((ds.foe idx).is_choked_by ≠ some ((ds.fighter idx).user_id)) ∧
        ((ds.fighter idx).choking_target ≠ some ((ds.foe idx).user_id))) ∧
        (ds.current_range ≠ CLOSE ∨ ¬(ql < 45/100))) := by tauto
    have hroll := roll_mem (3, 7) r (by norm_num)
    simp only [act_choke, CHOKE_STAM_DRAIN, CHOKE_DAMAGE]
    rw [if_neg hcond]
    simp [apply_damage, hroll.1, hroll.2]

/-- C1 witness: a no-link duel at Mid range rejects the choke unchanged,
and the same duel with a held choke link applies the full choke effects. -/
theorem choke_guard_and_effects_witness :
    act_choke dsMid 1 (1/2) 0 =
      ("X You need a **grapple** (or get lucky at Close) to choke.", dsMid) ∧
    ((act_choke dsChoke 1 (1/2) 0).2.fighter 1).choking_target = some 2 ∧
    ((act_choke dsChoke 1 (1/2) 0).2.foe 1).is_choked_by = some 1 ∧
    ((act_choke dsChoke 1 (1/2) 0).2.fighter 1).stamina = clamp (85 - 7) 0 100 ∧
    ((act_choke dsChoke 1 (1/2) 0).2.foe 1).hp = max 0 (100 - roll (3, 7) 0) :=
  ⟨(choke_guard_and_effects dsMid 1 (1/2) 0).1 (by decide) (by decide)
      (Or.inl (by decide)),
   ((choke_guard_and_effects dsChoke 1 (1/2) 0).2 (Or.inl (by decide))).1,
   ((choke_guard_and_effects dsChoke 1 (1/2) 0).2 (Or.inl (by decide))).2.1,
   ((choke_guard_and_effects dsChoke 1 (1/2) 0).2 (Or.inl (by decide))).2.2.1,
   ((choke_guard_and_effects dsChoke 1 (1/2) 0).2 (Or.inl (by decide))).2.2.2.1⟩

/-- C7: `act_punch` rejects away from Close range without touching state; at
Close a successful dodge consumes the defender's defensive flags; otherwise
the damage roll lands in `[5, 9]`, is halved (floored) with the block
consumed when the defender blocks, the damage is applied and the attacker
pays 5 stamina. -/
theorem punch_resolution :
    ∀ (ds : DuelState) (idx : Nat) (qd : ℚ) (r : Nat),
    (ds.current_range ≠ CLOSE →
       act_punch ds idx qd r = ("X Punch requires **Close** range.", ds)) ∧
    (ds.current_range = CLOSE → (ds.foe idx).status_dodge = true →
       qd < dodge_chance (ds.foe idx) →
       (act_punch ds idx qd r).2 =
         ds.setFoe idx { ds.foe idx with status_block := false, status_dodge := false }) ∧
    (ds.current_range = CLOSE →
       ¬((ds.foe idx).status_dodge = true ∧ qd < dodge_chance (ds.foe idx)) →
       5 ≤ roll (5, 9) r ∧ roll (5, 9) r ≤ 9 ∧
       (act_punch ds idx qd r).2 =
         (ds.setFoe idx (apply_damage
             (if (ds.foe idx).status_block = true then
                { ds.foe idx with status_block := false, status_dodge := false }
              else ds.foe idx)
             (if (ds.foe idx).status_block = true then roll (5, 9) r / 2
              else roll (5, 9) r))).setFighter idx
           { ds.fighter idx with stamina := clamp ((ds.fighter idx).stamina - 5) 0 100 }) := by
  intro ds idx qd r
  refine ⟨?_, ?_, ?_⟩
  · intro hr
    simp only [act_punch]
    rw [if_pos hr]
  · intro hr hdodge hroll
    simp only [act_punch]
    rw [if_neg (by simp [hr, CLOSE]), if_pos ⟨hdodge, hroll⟩]
  · intro hr hnododge
    have hroll := roll_mem (5, 9) r (by norm_num)
    refine ⟨hroll.1, hroll.2, ?_⟩
    simp only [act_punch]
    rw [if_neg (by simp [hr, CLOSE]), if_neg hnododge]
    by_cases hb : (ds.foe idx).status_block = true
    · rw [if_pos hb]
      simp [hb, blockReduce_eq]
    · rw [if_neg hb]
      simp [hb]

/-- C7 witness: the punch theorem at a Mid-range duel (rejection), at a
Close-range duel whose defender dodges (miss path), and at a Close-range
duel with no active defense (damage path). -/
theorem punch_resolution_witness :
    act_punch dsMid 1 (1/2) 0 = ("X Punch requires **Close** range.", dsMid) ∧
    (act_punch dsDodge 1 0 0).2 =
      dsDodge.setFoe 1 { dsDodge.foe 1 with status_block := false, status_dodge := false } ∧
    (5 ≤ roll (5, 9) 0 ∧ roll (5, 9) 0 ≤ 9 ∧
     (act_punch dsClose 1 (1/2) 0).2 =
       (dsClose.setFoe 1 (apply_damage
           (if (dsClose.foe 1).status_block = true then
              { dsClose.foe 1 with status_block := false, status_dodge := false }
            else dsClose.foe 1)
           (if (dsClose.foe 1).status_block = true then roll (5, 9) 0 / 2
            else roll (5, 9) 0))).setFighter 1
         { dsClose.fighter 1 with stamina := clamp ((dsClose.fighter 1).stamina - 5) 0 100 }) :=
  ⟨(punch_resolution dsMid 1 (1/2) 0).1 (by decide),
   (punch_resolution dsDodge 1 0 0).2.1 (by decide) (by decide)
     (by norm_num [dsDodge, fA, fB, DuelState.foe, dodge_chance, clampQ,
       DODGE_BASE, DODGE_STAM_SCALER, DODGE_WEIGHT_SCALER]),
   (punch_resolution dsClose 1 (1/2) 0).2.2 (by decide) (by decide)⟩

/-- C10: a successfully dodged punch mutates nothing except the defender's
cleared block/dodge flags (attacker stamina and defender HP untouched),
while a successfully dodged shot still costs the shooter 7 stamina. -/
theorem dodged_attack_frame :
    ∀ (ds : DuelState) (idx : Nat) (qd qh : ℚ) (r : Nat),
    (ds.current_range = CLOSE → (ds.foe idx).status_dodge = true →
       qd < dodge_chance (ds.foe idx) →
       (act_punch ds idx qd r).2 =
         ds.setFoe idx { ds.foe idx with status_block := false, status_dodge := false } ∧
       ((act_punch ds idx qd r).2.fighter idx).stamina = (ds.fighter idx).stamina ∧
       ((act_punch ds idx qd r).2.foe idx).hp = (ds.foe idx).hp) ∧
    (ds.current_range ≠ OUT → (ds.foe idx).status_dodge = true →
       qd < dodge_chance (ds.foe idx) →
       (act_shoot ds idx qd qh r).2 =
         (ds.setFoe idx { ds.foe idx with status_block := false, status_dodge := false
           }).setFighter idx
           { ds.fighter idx with stamina := clamp ((ds.fighter idx).stamina - 7) 0 100 } ∧
       ((act_shoot ds idx qd qh r).2.fighter idx).stamina =
         clamp ((ds.fighter idx).stamina - 7) 0 100 ∧
       ((act_shoot ds idx qd qh r).2.foe idx).hp = (ds.foe idx).hp) := by
  intro ds idx qd qh r
  constructor
  · intro hr hdodge hroll
    have hmain : (act_punch ds idx qd r).2 =
        ds.setFoe idx { ds.foe idx with status_block := false, status_dodge := false } := by
      simp only [act_punch]
      rw [if_neg (by simp [hr, CLOSE]), if_pos ⟨hdodge, hroll⟩]
    refine ⟨hmain, ?_, ?_⟩
    · rw [hmain]; simp
    · rw [hmain]; simp
  · intro hr hdodge hroll
    have hmain : (act_shoot ds idx qd qh r).2 =
        (ds.setFoe idx { ds.foe idx with status_block := false, status_dodge := false
          }).setFighter idx
          { ds.fighter idx with stamina := clamp ((ds.fighter idx).stamina - 7) 0 100 } := by
      simp only [act_shoot]
      rw [if_neg hr, if_pos ⟨hdodge, hroll⟩]
    refine ⟨hmain, ?_, ?_⟩
    · rw [hmain]; simp
    · rw [hmain]; simp

/-- C10 witness: a Close-range duel whose defender has the dodge flag set and
whose dodge roll succeeds (`0 < dodge_chance`). -/
theorem dodged_attack_frame_witness :
    ((act_punch dsDodge 1 0 0).2.fighter 1).stamina = (dsDodge.fighter 1).stamina ∧
    ((act_punch dsDodge 1 0 0).2.foe 1).hp = (dsDodge.foe 1).hp ∧
    ((act_shoot dsDodge 1 0 0 0).2.fighter 1).stamina =
      clamp ((dsDodge.fighter 1).stamina - 7) 0 100 ∧
    ((act_shoot dsDodge 1 0 0 0).2.foe 1).hp = (dsDodge.foe 1).hp := by
  have hd : (0 : ℚ) < dodge_chance (dsDodge.foe 1) := by
    norm_num [dsDodge, fA, fB, DuelState.foe, dodge_chance, clampQ,
      DODGE_BASE, DODGE_STAM_SCALER, DODGE_WEIGHT_SCALER]
  exact ⟨((dodged_attack_frame dsDodge 1 0 0 0).1 (by decide) (by decide) hd).2.1,
   ((dodged_attack_frame dsDodge 1 0 0 0).1 (by decide) (by decide) hd).2.2,
   ((dodged_attack_frame dsDodge 1 0 0 0).2 (by decide) (by decide) hd).2.1,
   ((dodged_attack_frame dsDodge 1 0 0 0).2 (by decide) (by decide) hd).2.2⟩

lemma chokePair_setFighter (ds : DuelState) (idx : Nat) (f : FighterState)
    (hu : f.user_id = (ds.fighter idx).user_id)
    (hc : f.choking_target = (ds.fighter idx).choking_target)
    (hb : f.is_choked_by = (ds.fighter idx).is_choked_by)
    (h : chokePair ds) : chokePair (ds.setFighter idx f) := by
  unfold chokePair DuelState.setFighter DuelState.fighter at *
  by_cases hidx : idx = 1 <;> simp_all

lemma chokePair_setFoe (ds : DuelState) (idx : Nat) (f : FighterState)
    (hu : f.user_id = (ds.foe idx).user_id)
    (hc : f.choking_target = (ds.foe idx).choking_target)
    (hb : f.is_choked_by = (ds.foe idx).is_choked_by)
    (h : chokePair ds) : chokePair (ds.setFoe idx f) := by
  unfold chokePair DuelState.setFoe DuelState.foe at *
  by_cases hidx : idx = 1 <;> simp_all

lemma chokePair_act_block (ds : DuelState) (idx : Nat) (h : chokePair ds) :
    chokePair (act_block ds idx).2 := by
  simp only [act_block]
  exact chokePair_setFighter _ _ _ rfl rfl rfl h

lemma chokePair_act_dodge (ds : DuelState) (idx : Nat) (h : chokePair ds) :
    chokePair (act_dodge ds idx).2 := by
  simp only [act_dodge]
  exact chokePair_setFighter _ _ _ rfl rfl rfl h

lemma chokePair_act_punch (ds : DuelState) (idx : Nat) (qd : ℚ) (r : Nat)
    (h : chokePair ds) : chokePair (act_punch ds idx qd r).2 := by
  simp only [act_punch]
  split
  · exact h
  · split
    · exact chokePair_setFoe _ _ _ rfl rfl rfl h
    · split
      · exact chokePair_setFighter _ _ _ (by simp) (by simp) (by simp)
          (chokePair_setFoe _ _ _ rfl rfl rfl h)
      · exact chokePair_setFighter _ _ _ (by simp) (by simp) (by simp)
          (chokePair_setFoe _ _ _ rfl rfl rfl h)

lemma chokePair_act_shoot (ds : DuelState) (idx : Nat) (qd qh : ℚ) (r : Nat)
    (h : chokePair ds) : chokePair (act_shoot ds idx qd qh r).2 := by
  simp only [act_shoot]
  split
  · exact h
  · split
    · exact chokePair_setFighter _ _ _ (by simp) (by simp) (by simp)
        (chokePair_setFoe _ _ _ rfl rfl rfl h)
    · split
      · exact chokePair_setFighter _ _ _ rfl rfl rfl h
      · split
        · exact chokePair_setFighter _ _ _ (by simp) (by simp) (by simp)
            (chokePair_setFoe _ _ _ rfl rfl rfl h)
        · exact chokePair_setFighter _ _ _ (by simp) (by simp) (by simp)
            (chokePair_setFoe _ _ _ rfl rfl rfl h)

lemma chokePair_act_grenade (ds : DuelState) (idx : Nat) (qhit qdestroy : ℚ)
    (r : Nat) (h : chokePair ds) : chokePair (act_grenade ds idx qhit qdestroy r).2 := by
  simp only [act_grenade]
  split
  · split
    · exact chokePair_setFoe _ _ _ (by simp [apply_damage]) (by simp [apply_damage])
        (by simp [apply_damage]) (chokePair_setFighter _ _ _ rfl rfl rfl h)
    · exact chokePair_setFoe _ _ _ (by simp [apply_damage]) (by simp [apply_damage])
        (by simp [apply_damage]) (chokePair_setFighter _ _ _ rfl rfl rfl h)
  · exact chokePair_setFighter _ _ _ rfl rfl rfl h

lemma chokePair_act_grapple_fail (ds : DuelState) (idx : Nat) (q : ℚ)
    (hq : ¬(q < 6/10)) (h : chokePair ds) : chokePair (act_grapple ds idx q).2 := by
  simp only [act_grapple]
  by_cases hr : ds.current_range ≠ CLOSE
  · rw [if_pos hr]
    exact h
  · rw [if_neg hr, if_neg hq]
    exact chokePair_setFighter _ _ _ rfl rfl rfl h

lemma chokePair_act_choke (ds : DuelState) (idx : Nat) (ql : ℚ) (r : Nat)
    (h : chokePair ds) : chokePair (act_choke ds idx ql r).2 := by
  simp only [act_choke]
  split
  · exact h
  · unfold chokePair at h ⊢
    by_cases hidx : idx = 1 <;>
      simp_all [DuelState.setFighter, DuelState.setFoe, DuelState.fighter,
        DuelState.foe, apply_damage]

lemma chokePair_act_push (ds : DuelState) (idx : Nat) (h : chokePair ds) :
    chokePair (act_push ds idx).2 := by
  simp only [act_push]
  split
  · exact h
  · unfold chokePair at h ⊢
    by_cases hidx : idx = 1 <;>
      simp_all [DuelState.setFighter, DuelState.setFoe, DuelState.fighter,
        DuelState.foe]

lemma chokePair_act_gouge (ds : DuelState) (idx : Nat) (q : ℚ) (r : Nat)
    (h : chokePair ds) : chokePair (act_gouge ds idx q r).2 := by
  simp only [act_gouge]
  split
  · exact h
  · split
    · unfold chokePair at h ⊢
      by_cases hidx : idx = 1 <;>
        simp_all [DuelState.setFighter, DuelState.setFoe, DuelState.fighter,
          DuelState.foe, apply_damage]
    · exact h

lemma chokePair_act_advance (ds : DuelState) (idx : Nat) (sprint : Bool)
    (h : chokePair ds) : chokePair (act_advance ds idx sprint).2 := by
  simp only [act_advance]
  exact chokePair_setFighter _ _ _ rfl rfl rfl h

lemma chokePair_act_retreat (ds : DuelState) (idx : Nat) (sprint : Bool)
    (h : chokePair ds) : chokePair (act_retreat ds idx sprint).2 := by
  simp only [act_retreat]
  exact chokePair_setFighter _ _ _ rfl rfl rfl h

/-- C5 counterexample: from a fresh Close-range duel with no links, a
successful grapple (`act_grapple`, luck draw 0 < 0.6) writes only the
defender's `is_choked_by`, leaving the attacker's `choking_target` null, so
the matched-pair property fails afterwards. -/
theorem choke_pair_broken_by_grapple :
    chokePair dsClose ∧
    ((act_grapple dsClose 1 0).2.p2.is_choked_by = some 1 ∧
     (act_grapple dsClose 1 0).2.p1.choking_target = none) ∧
    ¬ chokePair (act_grapple dsClose 1 0).2 := by
  have hstate : (act_grapple dsClose 1 0).2 =
      { p1 := { fA with stamina := 79 },
        p2 := { fB with is_choked_by := some 1 }, current_range := CLOSE } := by
    norm_num [act_grapple, dsClose, fA, fB, CLOSE, DuelState.fighter, DuelState.foe,
      DuelState.setFighter, DuelState.setFoe, clamp]
  refine ⟨by simp [chokePair, dsClose, fA, fB], ?_, ?_⟩
  · rw [hstate]
    simp [fA, fB]
  · rw [hstate]
    simp [chokePair, fA, fB]

/-- C5 (amended): every resolver action other than a *successful* grapple
preserves the matched-pair/both-null choke-link invariant; in particular it
holds after a choke, a push and a gouge (a successful grapple instead sets
only the defender's `is_choked_by`, see the counterexample). -/
theorem choke_pair_preserved :
    ∀ (ds : DuelState) (idx : Nat) (sprint : Bool) (qd qh qhit qdestroy ql q : ℚ)
      (r : Nat), chokePair ds →
      chokePair (act_block ds idx).2 ∧ chokePair (act_dodge ds idx).2 ∧
      chokePair (act_punch ds idx qd r).2 ∧ chokePair (act_shoot ds idx qd qh r).2 ∧
      chokePair (act_grenade ds idx qhit qdestroy r).2 ∧
      (¬(q < 6/10) → chokePair (act_grapple ds idx q).2) ∧
      chokePair (act_choke ds idx ql r).2 ∧ chokePair (act_push ds idx).2 ∧
      chokePair (act_gouge ds idx q r).2 ∧ chokePair (act_advance ds idx sprint).2 ∧
      chokePair (act_retreat ds idx sprint).2 := by
  intro ds idx sprint qd qh qhit qdestroy ql q r h
  exact ⟨chokePair_act_block ds idx h, chokePair_act_dodge ds idx h,
    chokePair_act_punch ds idx qd r h, chokePair_act_shoot ds idx qd qh r h,
    chokePair_act_grenade ds idx qhit qdestroy r h,
    fun hq => chokePair_act_grapple_fail ds idx q hq h,
    chokePair_act_choke ds idx ql r h, chokePair_act_push ds idx h,
    chokePair_act_gouge ds idx q r h, chokePair_act_advance ds idx sprint h,
    chokePair_act_retreat ds idx sprint h⟩

/-- C5 witness: the preservation theorem applied to a duel holding a full
choke link, including the choke, push and gouge conjuncts. -/
theorem choke_pair_preserved_witness :
    chokePair (act_choke dsChoke 1 (1/2) 0).2 ∧
    chokePair (act_push dsChoke 1).2 ∧
    chokePair (act_gouge dsChoke 2 0 0).2 ∧
    chokePair (act_grapple dsChoke 1 1).2 := by
  have h : chokePair dsChoke := by unfold chokePair; decide
  have h1 := choke_pair_preserved dsChoke 1 false (1/2) (1/2) (1/2) (1/2) (1/2) 1 0 h
  have h2 := choke_pair_preserved dsChoke 2 false (1/2) (1/2) (1/2) (1/2) (1/2) 0 0 h
  exact ⟨h1.2.2.2.2.2.2.1, h1.2.2.2.2.2.2.2.1, h2.2.2.2.2.2.2.2.2.1,
    h1.2.2.2.2.2.1 (by norm_num)⟩

/-- C6 counterexample: `act_grenade` itself never checks the grenade count.
With zero grenades (`can_throw_grenade 0 = false`) and a missing hit roll,
invoking the resolver's grenade action still drains the thrower's stamina
from 85 to 75, so the claimed zero-mutation rejection does not happen. -/
theorem grenade_gate_not_enforced :
    can_throw_grenade 0 = false ∧
    dsMid.p1.stamina = 85 ∧
    (act_grenade dsMid 1 1 1 0).2.p1.stamina = 75 := by
  have hstate : (act_grenade dsMid 1 1 1 0).2 =
      { p1 := { fA with stamina := 75 }, p2 := fB } := by
    norm_num [act_grenade, dsMid, fA, fB, GRENADE_HIT_PCT, DuelState.fighter,
      DuelState.foe, DuelState.setFighter, DuelState.setFoe, clamp]
  refine ⟨rfl, rfl, ?_⟩
  rw [hstate]

/-- C6 (amended): the grenade-count gate exists only as the separate
predicate `can_throw_grenade` (true iff the kit holds a positive count),
which the UI layer enforces; `act_grenade`, whenever invoked, always drains
the thrower's 10 stamina, and otherwise behaves as claimed: a 75% hit deals
uniform damage in `[14, 22]`, removes partial cover on the 35% roll and
clears the defender's block/dodge flags, while a miss changes nothing
beyond the stamina drain. -/
theorem grenade_gate_and_effects :
    (∀ g : Int, can_throw_grenade g = true ↔ 0 < g) ∧
    (∀ (ds : DuelState) (idx : Nat) (qhit qdestroy : ℚ) (r : Nat),
      (¬(qhit < 75/100) → (act_grenade ds idx qhit qdestroy r).2 =
         ds.setFighter idx
           { ds.fighter idx with stamina := clamp ((ds.fighter idx).stamina - 10) 0 100 }) ∧
      (qhit < 75/100 →
        14 ≤ roll (14, 22) r ∧ roll (14, 22) r ≤ 22 ∧
        ((act_grenade ds idx qhit qdestroy r).2.foe idx).hp =
            max 0 ((ds.foe idx).hp - roll (14, 22) r) ∧
        ((act_grenade ds idx qhit qdestroy r).2.foe idx).status_block = false ∧
        ((act_grenade ds idx qhit qdestroy r).2.foe idx).status_dodge = false ∧
        ((act_grenade ds idx qhit qdestroy r).2.foe idx).cover =
          (if (ds.foe idx).cover = COVER_PARTIAL ∧ qdestroy < 35/100 then COVER_NONE
           else (ds.foe idx).cover) ∧
        ((act_grenade ds idx qhit qdestroy r).2.fighter idx).stamina =
          clamp ((ds.fighter idx).stamina - 10) 0 100)) := by
  constructor
  · intro g
    simp [can_throw_grenade]
  · intro ds idx qhit qdestroy r
    constructor
    · intro hmiss
      simp only [act_grenade, GRENADE_HIT_PCT]
      rw [if_neg hmiss]
    · intro hhit
      have hroll := roll_mem (14, 22) r (by norm_num)
      simp only [act_grenade, GRENADE_HIT_PCT, GRENADE_DMG, GRENADE_DESTROY_PARTIAL_PCT]
      rw [if_pos hhit]
      split
      · simp_all [apply_damage]
      · simp_all [apply_damage]

/-- C6 witness: the amended grenade theorem at a fresh duel, both on a
missed (`qhit = 1`) and on a hit (`qhit = 0`) roll. -/
theorem grenade_gate_and_effects_witness :
    (act_grenade dsMid 1 1 1 0).2 =
      dsMid.setFighter 1
        { dsMid.fighter 1 with stamina := clamp ((dsMid.fighter 1).stamina - 10) 0 100 } ∧
    ((act_grenade dsMid 1 0 1 0).2.foe 1).hp =
      max 0 ((dsMid.foe 1).hp - roll (14, 22) 0) :=
  ⟨(grenade_gate_and_effects.2 dsMid 1 1 1 0).1 (by norm_num),
   ((grenade_gate_and_effects.2 dsMid 1 0 1 0).2 (by norm_num)).2.2.1⟩

lemma fighter_update_misc (ds : DuelState) (gp : List (Nat × Nat × Nat))
    (l : List String) (idx : Nat) :
    ({ ds with grenades_pending := gp, log := l } : DuelState).fighter idx =
      ds.fighter idx := by
  unfold DuelState.fighter; split <;> rfl

lemma find?_filter_ne (l : List (Nat × Nat × Nat)) (u : Nat) :
    (l.filter (fun x => x.1 ≠ u)).find? (fun e => e.1 == u) = none := by
  simp only [List.find?_eq_none, List.mem_filter]
  intro x hx
  simp only [decide_not, Bool.not_eq_true', decide_eq_false_iff_not] at hx
  simp [hx.2]

lemma resolve_pending_none (ds : DuelState) (idx : Nat)
    (h : ds.grenades_pending.find? (fun e => e.1 == (ds.fighter idx).user_id) = none) :
    resolve_pending_grenade ds idx = ds := by
  simp only [resolve_pending_grenade]
  rw [h]

lemma resolve_pending_some (ds : DuelState) (idx : Nat) (e : Nat × Nat × Nat)
    (h : ds.grenades_pending.find? (fun x => x.1 == (ds.fighter idx).user_id) = some e) :
    resolve_pending_grenade ds idx =
      { ds.setFighter idx (apply_damage (ds.fighter idx) e.2.2) with
          grenades_pending :=
            ds.grenades_pending.filter (fun x => x.1 ≠ (ds.fighter idx).user_id),
          log := ds.log ++
            ["The grenade detonates near " ++ (ds.fighter idx).display ++ "."] } := by
  simp only [resolve_pending_grenade]
  rw [h]

/-- C8: a pending grenade recorded against the acting fighter detonates on
resolution, applying exactly its recorded damage (HP clamped at 0), and its
entry is removed from the pending map; with no entry the resolver changes
nothing, so resolving a second time is always a no-op. -/
theorem pending_grenade_detonates_once :
    ∀ (ds : DuelState) (idx : Nat) (tgt fromId d : Nat),
    (ds.grenades_pending.find? (fun e => e.1 == (ds.fighter idx).user_id) =
        some (tgt, fromId, d) →
      ((resolve_pending_grenade ds idx).fighter idx).hp =
        max 0 ((ds.fighter idx).hp - d) ∧
      (resolve_pending_grenade ds idx).grenades_pending.find?
        (fun e => e.1 == (ds.fighter idx).user_id) = none) ∧
    (ds.grenades_pending.find? (fun e => e.1 == (ds.fighter idx).user_id) = none →
      resolve_pending_grenade ds idx = ds) ∧
    resolve_pending_grenade (resolve_pending_grenade ds idx) idx =
      resolve_pending_grenade ds idx := by
  intro ds idx tgt fromId d
  refine ⟨?_, fun h => resolve_pending_none ds idx h, ?_⟩
  · intro hfind
    rw [resolve_pending_some ds idx (tgt, fromId, d) hfind]
    constructor
    · rw [fighter_update_misc, fighter_setFighter]
      rfl
    · exact find?_filter_ne _ _
  · cases hfind : ds.grenades_pending.find? (fun e => e.1 == (ds.fighter idx).user_id) with
    | none =>
        rw [resolve_pending_none ds idx hfind]
        exact resolve_pending_none ds idx hfind
    | some e =>
        rw [resolve_pending_some ds idx e hfind]
        apply resolve_pending_none
        rw [fighter_update_misc, fighter_setFighter]
        exact find?_filter_ne _ _

/-- Fresh duel with a pending grenade of damage 33 recorded against A. -/
def dsPending : DuelState := { p1 := fA, p2 := fB, grenades_pending := [(1, 2, 33)] }

/-- C8 witness: a concrete pending grenade against fighter A detonates for
its recorded 33 damage, leaves no pending entry, and a second resolution is
the identity. -/
theorem pending_grenade_detonates_once_witness :
    ((resolve_pending_grenade dsPending 1).fighter 1).hp =
      max 0 ((dsPending.fighter 1).hp - 33) ∧
    (resolve_pending_grenade dsPending 1).grenades_pending.find?
      (fun e => e.1 == (dsPending.fighter 1).user_id) = none ∧
    resolve_pending_grenade (resolve_pending_grenade dsPending 1) 1 =
      resolve_pending_grenade dsPending 1 :=
  ⟨((pending_grenade_detonates_once dsPending 1 1 2 33).1 (by decide)).1,
   ((pending_grenade_detonates_once dsPending 1 1 2 33).1 (by decide)).2,
   (pending_grenade_detonates_once dsPending 1 1 2 33).2.2⟩

end Lowlife
